import Mathlib

/-!
Shallow embedding of the droog-game on-chain program (Rust / Anchor) and
proofs about its specification claims.

Machine integers are modelled as `Nat` (u8/u32/u64, with explicit `% 2^64`
where the source uses wrapping arithmetic and explicit saturation where the
source uses saturating arithmetic) and as `Int` (i32/i64, with explicit
saturation where the source uses saturating ops).  Fallible instructions
return `Except DroogError`.
-/

namespace Droog

/-- 2^64, the modulus of u64 arithmetic. -/
def U64_MOD : Nat := 2 ^ 64

/-- i64::MIN. -/
def I64_MIN : Int := -(2 ^ 63)

/-- i64::MAX. -/
def I64_MAX : Int := 2 ^ 63 - 1

/-- i64 saturating subtraction (`i64::saturating_sub`). -/
def i64SatSub (a b : Int) : Int := max I64_MIN (min (a - b) I64_MAX)

/-- i32 saturating addition (`i32::saturating_add`). -/
def i32SatAdd (a b : Int) : Int := max (-(2 ^ 31)) (min (a + b) (2 ^ 31 - 1))

/-- u8 saturating addition (`u8::saturating_add`). -/
def u8SatAdd (a b : Nat) : Nat := min (a + b) 255

/-- `x as u64` for an i64 value `x` (two's-complement reinterpretation). -/
def i64AsU64 (x : Int) : Nat := (x % (2 ^ 64 : Int)).toNat

/-- u64 `checked_add`. -/
def checkedAdd (a b : Nat) : Option Nat :=
  if a + b < U64_MOD then some (a + b) else none

/-- u64 `checked_mul`. -/
def checkedMul (a b : Nat) : Option Nat :=
  if a * b < U64_MOD then some (a * b) else none

/-- u64 `checked_div`. -/
def checkedDiv (a b : Nat) : Option Nat :=
  if b = 0 then none else some (a / b)

/-- u64 `checked_sub`. -/
def checkedSub (a b : Nat) : Option Nat :=
  if b ≤ a then some (a - b) else none

/-- Error enum of the program (`errors.rs`, `DroogError`). -/
inductive DroogError where
  | MatchNotStarted
  | MatchEnded
  | GrowthTimeNotElapsed
  | RegrowthLockoutActive
  | StrainNotActive
  | CustomerOnCooldown
  | InvalidStrainLevel
  | InvalidCustomerIndex
  | InvalidPlayer
  | CustomerNotAvailable
  | InvalidLayer
  | MatchAlreadyFinalized
  | MatchFinalizationTooEarly
  | UnauthorizedFinalization
  | MatchIdMismatch
  | EndgamePlantingLocked
  | InvalidSlotIndex
  | SlotOccupied
  | SlotEmpty
  | PlantWontBeReady
  | InsufficientInventory
  | InventoryFull
  | CustomerNotAvailableForDelivery
  | DeliveryRotationTooSoon
  | DeliveryStateNotInitialized
  | InvalidPlayerOrder
  | InsufficientStakeBalance
  | MatchNotPending
  | MatchNotActive
  | CancelTooEarly
  | PlayerBAlreadyJoined
  | StakeExceedsMaximum
  | AlreadyStaked
  | CalculationOverflow
deriving DecidableEq, Repr

/-! ## Delivery rotation (`state/delivery_state.rs`) -/

/-- `DELIVERY_ROTATION_INTERVAL`: delivery slot rotation interval in seconds. -/
def DELIVERY_ROTATION_INTERVAL : Int := 60

/-- `MAX_DELIVERY_SPOTS`. -/
def MAX_DELIVERY_SPOTS : Nat := 5

/-- `INVALID_INDEX` sentinel. -/
def INVALID_INDEX : Nat := 255

def LAYER3_START : Nat := 0
def LAYER3_END : Nat := 2
def LAYER2_START : Nat := 3
def LAYER2_END : Nat := 10
def LAYER1_START : Nat := 11
def LAYER1_END : Nat := 22

/-- `MatchDeliveryState::compute_delivery_seed`.  Rust i64 division truncates
toward zero (`Int.tdiv`), and the quotient is cast `as u64`. -/
def compute_delivery_seed (match_id : Nat) (current_ts : Int) : Nat :=
  let timestamp_bucket : Nat := i64AsU64 (current_ts.tdiv DELIVERY_ROTATION_INTERVAL)
  let hash := match_id ^^^ timestamp_bucket
  let hash := (hash * 0x517cc1b727220a95) % U64_MOD
  let hash := hash ^^^ (hash >>> 32)
  let hash := (hash * 0x7fb5d329728ea185) % U64_MOD
  hash ^^^ (hash >>> 27)

/-- `MatchDeliveryState::contains_spot` restricted to the first `count`
entries; here the list holds exactly the valid entries. -/
def contains_spot (spots : List Nat) (value : Nat) : Bool :=
  spots.any (fun s => s == value)

/-- The three guaranteed layer picks of
`MatchDeliveryState::select_delivery_spots` (lines 101-117): one index from
each layer range, in push order. -/
def select_spots_layer_picks (seed : Nat) : List Nat :=
  let layer3_count := LAYER3_END - LAYER3_START + 1
  let layer3_pick := LAYER3_START + seed % layer3_count
  let layer2_count := LAYER2_END - LAYER2_START + 1
  let layer2_pick := LAYER2_START + (seed >>> 8) % layer2_count
  let layer1_count := LAYER1_END - LAYER1_START + 1
  let layer1_pick := LAYER1_START + (seed >>> 16) % layer1_count
  [layer3_pick] ++ [layer2_pick] ++ [layer1_pick]

/-- Additional spot 1 of `select_delivery_spots` (lines 119-148): a Layer 2
or Layer 1 pick; on a duplicate the next offset is pushed unconditionally. -/
def select_spots_additional1 (seed : Nat) (spots : List Nat) : List Nat :=
  let layer2_count := LAYER2_END - LAYER2_START + 1
  let layer1_count := LAYER1_END - LAYER1_START + 1
  let additional1_seed := seed >>> 24
  if additional1_seed % 3 = 0 then
    let l2_offset := (additional1_seed >>> 4) % layer2_count
    let pick := LAYER2_START + l2_offset
    if !(contains_spot spots pick) then
      spots ++ [pick]
    else
      spots ++ [LAYER2_START + (l2_offset + 1) % layer2_count]
  else
    let l1_offset := (additional1_seed >>> 4) % layer1_count
    let pick := LAYER1_START + l1_offset
    if !(contains_spot spots pick) then
      spots ++ [pick]
    else
      spots ++ [LAYER1_START + (l1_offset + 1) % layer1_count]

/-- Additional spot 2 of `select_delivery_spots` (lines 150-190): a pick
from any layer, pushed only when it (or, for layers 1-2, its fallback) is
not already present. -/
def select_spots_additional2 (seed : Nat) (spots : List Nat) : List Nat :=
  let layer3_count := LAYER3_END - LAYER3_START + 1
  let layer2_count := LAYER2_END - LAYER2_START + 1
  let layer1_count := LAYER1_END - LAYER1_START + 1
  let additional2_seed := seed >>> 40
  let layer_choice := additional2_seed % 6
  if layer_choice < 2 then
    let l3_offset := (additional2_seed >>> 4) % layer3_count
    let pick := LAYER3_START + l3_offset
    if !(contains_spot spots pick) then spots ++ [pick] else spots
  else if layer_choice < 4 then
    let l2_offset := (additional2_seed >>> 4) % layer2_count
    let pick := LAYER2_START + l2_offset
    if !(contains_spot spots pick) then
      spots ++ [pick]
    else
      let fallback := LAYER2_START + (l2_offset + 2) % layer2_count
      if !(contains_spot spots fallback) then spots ++ [fallback] else spots
  else
    let l1_offset := (additional2_seed >>> 4) % layer1_count
    let pick := LAYER1_START + l1_offset
    if !(contains_spot spots pick) then
      spots ++ [pick]
    else
      let fallback := LAYER1_START + (l1_offset + 2) % layer1_count
      if !(contains_spot spots fallback) then spots ++ [fallback] else spots

/-- `MatchDeliveryState::select_delivery_spots`, modelled as the list of the
`count` valid entries pushed into the array, in push order: the three layer
picks followed by the two bonus-slot stages. -/
def select_delivery_spots (seed : Nat) : List Nat :=
  select_spots_additional2 seed (select_spots_additional1 seed (select_spots_layer_picks seed))

/-- `MatchDeliveryState::needs_refresh`. -/
def needs_refresh (last_update_ts current_ts : Int) : Bool :=
  decide (current_ts ≥ last_update_ts + DELIVERY_ROTATION_INTERVAL)

/-- `MatchDeliveryState` account data (player keys are modelled as `Nat`).
`available_customers` holds `MAX_DELIVERY_SPOTS` entries, unused ones are the
`INVALID_INDEX` sentinel; `active_count` counts the valid ones. -/
structure MatchDeliveryState where
  match_id : Nat
  last_update_ts : Int
  available_customers : List Nat
  active_count : Nat
deriving DecidableEq, Repr

/-- `MatchDeliveryState::is_customer_available`: scan the first
`active_count` entries (guarded by `i < MAX_DELIVERY_SPOTS`). -/
def MatchDeliveryState.is_customer_available (ds : MatchDeliveryState)
    (customer_index : Nat) : Bool :=
  (List.range ds.active_count).any fun i =>
    decide (i < MAX_DELIVERY_SPOTS) &&
      (ds.available_customers.getD i INVALID_INDEX == customer_index)

/-! ## Customers and match state (`state/customer_state.rs`, `state/match_state.rs`) -/

/-- `CustomerState` account data (`Pubkey` modelled as `Nat`). -/
structure CustomerState where
  layer : Nat
  last_served_ts : Int
  total_serves : Nat
  last_served_by : Option Nat
deriving DecidableEq, Repr

/-- `MatchState` account data. -/
structure MatchState where
  match_id : Nat
  start_ts : Int
  end_ts : Int
  player_a : Nat
  player_b : Nat
  customers : List CustomerState
  player_a_sales : Nat
  player_b_sales : Nat
  player_a_reputation : Int
  player_b_reputation : Int
  is_finalized : Bool
deriving DecidableEq, Repr

/-- `MatchState::REP_MIN`. -/
def REP_MIN : Int := -1000

/-- `MatchState::REP_MAX`. -/
def REP_MAX : Int := 1000

/-- `MatchState::layer_from_index`: the canonical index-to-layer rule. -/
def MatchState.layer_from_index (customer_index : Nat) : Nat :=
  if customer_index < 3 then 3
  else if customer_index < 11 then 2
  else 1

/-- `MatchState::get_customer_cooldown`. -/
def MatchState.get_customer_cooldown (layer : Nat) : Int :=
  if layer = 1 then 30
  else if layer = 2 then 45
  else if layer = 3 then 75
  else 0

/-- `MatchState::is_customer_available` (cooldown gate). -/
def MatchState.is_customer_available (m : MatchState) (customer_index : Nat)
    (current_ts : Int) : Bool :=
  if customer_index ≥ 23 then false
  else
    let customer := m.customers.getD customer_index ⟨0, 0, 0, none⟩
    if customer.last_served_ts == 0 then true
    else
      let layer := MatchState.layer_from_index customer_index
      let cooldown := MatchState.get_customer_cooldown layer
      decide (current_ts ≥ customer.last_served_ts + cooldown)

/-- `MatchState::validate_strain_for_customer`. -/
def MatchState.validate_strain_for_customer (m : MatchState)
    (customer_index strain_level : Nat) : Bool :=
  if customer_index ≥ 23 then false
  else
    let layer := MatchState.layer_from_index customer_index
    if layer = 1 then strain_level == 1
    else if layer = 2 then strain_level == 1 || strain_level == 2
    else if layer = 3 then strain_level == 2 || strain_level == 3
    else false

/-- `MatchState::get_reputation_change`: the reputation delta table. -/
def MatchState.get_reputation_change (customer_layer strain_level : Nat) : Int :=
  if customer_layer = 1 then
    if strain_level = 1 then 1 else -2
  else if customer_layer = 2 then
    if strain_level = 2 then 2
    else if strain_level = 1 then 1
    else -2
  else if customer_layer = 3 then
    if strain_level = 3 then 3
    else if strain_level = 2 then 1
    else -3
  else 0

/-- `MatchState::clamp_reputation`: `rep.max(REP_MIN).min(REP_MAX)`. -/
def MatchState.clamp_reputation (rep : Int) : Int :=
  min (max rep REP_MIN) REP_MAX

/-- The per-customer initialisation performed by `init_match` (lines 63-71):
the stored layer is `1` for indices 0-11, `2` for 12-19, `3` for 20-22. -/
def init_customer_layer (i : Nat) : Nat :=
  if i < 12 then 1 else if i < 20 then 2 else 3

/-- The 23-entry customer roster as written by `init_match`. -/
def init_customers : List CustomerState :=
  (List.range 23).map fun i => ⟨init_customer_layer i, 0, 0, none⟩

/-! ## Grow state and inventory (`state/grow_state.rs`) -/

/-- `GROWTH_TIMES` via `MatchGrowState::get_growth_time`. -/
def get_growth_time (strain_level : Nat) : Int :=
  if strain_level = 1 then 10
  else if strain_level = 2 then 30
  else if strain_level = 3 then 60
  else 0

/-- `SLOTS_PER_PLAYER`. -/
def SLOTS_PER_PLAYER : Nat := 6

/-- `ENDGAME_LOCK_SECONDS`. -/
def ENDGAME_LOCK_SECONDS : Int := 60

/-- `PlantState` tagged union. -/
inductive PlantState where
  | Empty
  | Growing (strain_level : Nat) (planted_at : Int)
  | Ready (strain_level : Nat)
deriving DecidableEq, Repr

/-- `GrowSlot` record. -/
structure GrowSlot where
  plant_state : PlantState
  strain_level : Nat
  variant_id : Nat
  last_harvested_ts : Int
deriving DecidableEq, Repr

/-- `GrowSlot::advance_if_ready`: lazily promote Growing to Ready once
`current_ts.saturating_sub(planted_at) >= growth_time`. -/
def GrowSlot.advance_if_ready (slot : GrowSlot) (current_ts : Int) : GrowSlot :=
  match slot.plant_state with
  | PlantState.Growing strain_level planted_at =>
      if i64SatSub current_ts planted_at ≥ get_growth_time strain_level then
        { slot with plant_state := PlantState.Ready strain_level }
      else slot
  | _ => slot

/-- `MatchGrowState::will_be_ready_in_time`. -/
def will_be_ready_in_time (current_ts end_ts : Int) (strain_level : Nat) : Bool :=
  decide (current_ts + get_growth_time strain_level ≤ end_ts)

/-- `MatchGrowState::can_plant` (endgame lock). -/
def can_plant (current_ts end_ts : Int) : Bool :=
  decide (current_ts < end_ts - ENDGAME_LOCK_SECONDS)

/-- `MatchGrowState::get_variant_rep_bonus`. -/
def get_variant_rep_bonus (variant_id : Nat) : Int :=
  if variant_id = 0 then -1
  else if variant_id = 1 then 0
  else if variant_id = 2 then 1
  else 0

/-- `Inventory` record (u8 counters). -/
structure Inventory where
  level1 : Nat
  level2 : Nat
  level3 : Nat
deriving DecidableEq, Repr

/-- `Inventory::INVENTORY_CAPACITY`. -/
def INVENTORY_CAPACITY : Nat := 6

/-- `Inventory::has`. -/
def Inventory.has (inv : Inventory) (strain_level : Nat) : Bool :=
  if strain_level = 1 then decide (inv.level1 > 0)
  else if strain_level = 2 then decide (inv.level2 > 0)
  else if strain_level = 3 then decide (inv.level3 > 0)
  else false

/-- `Inventory::get`. -/
def Inventory.get (inv : Inventory) (strain_level : Nat) : Nat :=
  if strain_level = 1 then inv.level1
  else if strain_level = 2 then inv.level2
  else if strain_level = 3 then inv.level3
  else 0

/-- `Inventory::total`: u8 saturating sum of the three levels. -/
def Inventory.total (inv : Inventory) : Nat :=
  u8SatAdd (u8SatAdd inv.level1 inv.level2) inv.level3

/-- `Inventory::has_space`. -/
def Inventory.has_space (inv : Inventory) : Bool :=
  decide (inv.total < INVENTORY_CAPACITY)

/-- `Inventory::increment` (u8 saturating add, no capacity check here). -/
def Inventory.increment (inv : Inventory) (strain_level : Nat) : Inventory :=
  if strain_level = 1 then { inv with level1 := u8SatAdd inv.level1 1 }
  else if strain_level = 2 then { inv with level2 := u8SatAdd inv.level2 1 }
  else if strain_level = 3 then { inv with level3 := u8SatAdd inv.level3 1 }
  else inv

/-- `Inventory::decrement`: returns success flag and the (possibly unchanged)
inventory. -/
def Inventory.decrement (inv : Inventory) (strain_level : Nat) : Bool × Inventory :=
  if strain_level = 1 ∧ inv.level1 > 0 then
    (true, { inv with level1 := inv.level1 - 1 })
  else if strain_level = 2 ∧ inv.level2 > 0 then
    (true, { inv with level2 := inv.level2 - 1 })
  else if strain_level = 3 ∧ inv.level3 > 0 then
    (true, { inv with level3 := inv.level3 - 1 })
  else (false, inv)

/-- `MatchGrowState` account data. -/
structure MatchGrowState where
  match_id : Nat
  player_a : Nat
  player_b : Nat
  player_a_slots : List GrowSlot
  player_b_slots : List GrowSlot
  player_a_inventory : Inventory
  player_b_inventory : Inventory
deriving DecidableEq, Repr

/-- `MatchGrowState::find_variant_for_sale`: among Empty slots whose cached
strain level matches, the one with the greatest `last_harvested_ts` wins,
later slots winning ties (Rust `max_by_key` keeps the last maximum). -/
def find_variant_for_sale (slots : List GrowSlot) (strain_level : Nat) : Option Nat :=
  let candidates := slots.filter fun s =>
    (s.plant_state == PlantState.Empty) && (s.strain_level == strain_level)
  let best := candidates.foldl
    (fun acc s =>
      match acc with
      | none => some s
      | some b => if s.last_harvested_ts ≥ b.last_harvested_ts then some s else some b)
    (none : Option GrowSlot)
  best.map fun s => s.variant_id

/-! ## Stake state (`state/stake_state.rs`) -/

/-- `STAKE_AMOUNT`. -/
def STAKE_AMOUNT : Nat := 1000000

/-- `BURN_PERCENTAGE`. -/
def BURN_PERCENTAGE : Nat := 10

/-- `CANCEL_TIMEOUT_SECONDS`. -/
def CANCEL_TIMEOUT_SECONDS : Int := 300

/-- `MatchStatus` staking lifecycle enum. -/
inductive MatchStatus where
  | Pending
  | Active
  | Finalized
  | Cancelled
deriving DecidableEq, Repr

/-- `MatchStakeState` account data. -/
structure MatchStakeState where
  match_id : Nat
  player_a : Nat
  player_b : Nat
  status : MatchStatus
  player_a_escrowed : Nat
  player_b_escrowed : Nat
  created_at : Int
deriving DecidableEq, Repr

/-- `MatchStakeState::calculate_burn_amount`:
`total.checked_mul(BURN_PERCENTAGE).unwrap_or(0).checked_div(100).unwrap_or(0)`. -/
def calculate_burn_amount (total_escrowed : Nat) : Nat :=
  (checkedDiv ((checkedMul total_escrowed BURN_PERCENTAGE).getD 0) 100).getD 0

/-- The settlement arithmetic of `join_match_with_stake` (lines 72-103):
checked total, burn amount, checked final pot.  Token CPI effects are not
arithmetic and are omitted; the returned triple is
(total_escrowed, burn_amount, final_pot). -/
def join_settlement (player_a_escrowed player_b_escrowed : Nat) :
    Except DroogError (Nat × Nat × Nat) :=
  match checkedAdd player_a_escrowed player_b_escrowed with
  | none => Except.error DroogError.CalculationOverflow
  | some total_escrowed =>
    let burn_amount := calculate_burn_amount total_escrowed
    match checkedSub total_escrowed burn_amount with
    | none => Except.error DroogError.CalculationOverflow
    | some final_pot => Except.ok (total_escrowed, burn_amount, final_pot)

/-! ## Instruction: sell_to_customer (`instructions/sell_to_customer.rs`) -/

/-- `sell_to_customer`, including the Anchor account constraints
(match-id cross-checks) evaluated before the instruction body.  On success
returns the updated match and grow state; on failure nothing is written. -/
def sell_to_customer (current_ts : Int) (match_state : MatchState)
    (grow_state : MatchGrowState) (delivery_state : MatchDeliveryState)
    (player : Nat) (customer_index strain_level : Nat) :
    Except DroogError (MatchState × MatchGrowState) :=
  if grow_state.match_id ≠ match_state.match_id then
    Except.error DroogError.MatchIdMismatch
  else if delivery_state.match_id ≠ match_state.match_id then
    Except.error DroogError.MatchIdMismatch
  else if match_state.is_finalized then
    Except.error DroogError.MatchAlreadyFinalized
  else if ¬ current_ts ≥ match_state.start_ts then
    Except.error DroogError.MatchNotStarted
  else if ¬ current_ts < match_state.end_ts then
    Except.error DroogError.MatchEnded
  else if ¬ customer_index < 23 then
    Except.error DroogError.InvalidCustomerIndex
  else if ¬ (strain_level ≥ 1 ∧ strain_level ≤ 3) then
    Except.error DroogError.InvalidStrainLevel
  else
    let is_player_a := player == match_state.player_a
    let is_player_b := player == match_state.player_b
    if ¬ (is_player_a || is_player_b) then
      Except.error DroogError.InvalidPlayer
    else if ¬ delivery_state.is_customer_available customer_index then
      Except.error DroogError.CustomerNotAvailableForDelivery
    else
      let customer_layer := MatchState.layer_from_index customer_index
      if ¬ match_state.is_customer_available customer_index current_ts then
        Except.error DroogError.CustomerOnCooldown
      else if ¬ match_state.validate_strain_for_customer customer_index strain_level then
        Except.error DroogError.InvalidStrainLevel
      else
        let slots_snapshot :=
          if is_player_a then grow_state.player_a_slots else grow_state.player_b_slots
        let variant_id := find_variant_for_sale slots_snapshot strain_level
        let inventory :=
          if is_player_a then grow_state.player_a_inventory else grow_state.player_b_inventory
        if ¬ inventory.has strain_level then
          Except.error DroogError.InsufficientInventory
        else
          let burned_inv := inventory.decrement strain_level
          if ¬ burned_inv.1 then
            Except.error DroogError.InsufficientInventory
          else
            let inventory := burned_inv.2
            let base_reputation_change :=
              MatchState.get_reputation_change customer_layer strain_level
            let variant_bonus := (variant_id.map get_variant_rep_bonus).getD 0
            let total_reputation_change := i32SatAdd base_reputation_change variant_bonus
            let customer := match_state.customers.getD customer_index ⟨0, 0, 0, none⟩
            let customer := { customer with
              last_served_ts := current_ts,
              total_serves := customer.total_serves + 1,
              last_served_by := some player }
            let match_state :=
              { match_state with customers := match_state.customers.set customer_index customer }
            if is_player_a then
              Except.ok
                ({ match_state with
                    player_a_sales := match_state.player_a_sales + 1,
                    player_a_reputation := MatchState.clamp_reputation
                      (i32SatAdd match_state.player_a_reputation total_reputation_change) },
                 { grow_state with player_a_inventory := inventory })
            else
              Except.ok
                ({ match_state with
                    player_b_sales := match_state.player_b_sales + 1,
                    player_b_reputation := MatchState.clamp_reputation
                      (i32SatAdd match_state.player_b_reputation total_reputation_change) },
                 { grow_state with player_b_inventory := inventory })

/-! ## Instruction: harvest_strain (`instructions/harvest_strain.rs`) -/

/-- `harvest_strain`.  The caller's slot is advanced lazily, must then be
Ready; the inventory must have space; the slot is freed and the harvest time
recorded.  On failure nothing is written. -/
def harvest_strain (current_ts : Int) (grow_state : MatchGrowState)
    (match_state : MatchState) (player : Nat) (slot_index : Nat) :
    Except DroogError MatchGrowState :=
  if match_state.is_finalized then
    Except.error DroogError.MatchAlreadyFinalized
  else if ¬ current_ts ≥ match_state.start_ts then
    Except.error DroogError.MatchNotStarted
  else if ¬ current_ts < match_state.end_ts then
    Except.error DroogError.MatchEnded
  else if ¬ slot_index < SLOTS_PER_PLAYER then
    Except.error DroogError.InvalidSlotIndex
  else
    let is_player_a := player == grow_state.player_a
    let is_player_b := player == grow_state.player_b
    if ¬ (is_player_a || is_player_b) then
      Except.error DroogError.InvalidPlayer
    else
      let slots := if is_player_a then grow_state.player_a_slots else grow_state.player_b_slots
      let inventory :=
        if is_player_a then grow_state.player_a_inventory else grow_state.player_b_inventory
      let slot := (slots.getD slot_index ⟨PlantState.Empty, 0, 0, 0⟩).advance_if_ready current_ts
      match slot.plant_state with
      | PlantState.Empty => Except.error DroogError.SlotEmpty
      | PlantState.Growing _ _ => Except.error DroogError.GrowthTimeNotElapsed
      | PlantState.Ready strain_level =>
        if ¬ inventory.has_space then
          Except.error DroogError.InventoryFull
        else
          let inventory := inventory.increment strain_level
          let slot := { slot with
            plant_state := PlantState.Empty, last_harvested_ts := current_ts }
          let slots := slots.set slot_index slot
          if is_player_a then
            Except.ok { grow_state with
              player_a_slots := slots, player_a_inventory := inventory }
          else
            Except.ok { grow_state with
              player_b_slots := slots, player_b_inventory := inventory }

/-! ## Instruction: finalize_match (`instructions/finalize_match.rs`) -/

/-- Result of a successful `finalize_match`: the updated accounts, the token
transfer (destination owner and amount), and the payout event fields. -/
structure FinalizeResult where
  match_state : MatchState
  stake_state : MatchStakeState
  payout_destination : Nat
  payout_amount : Nat
  event_winner : Nat
  event_loser : Nat
  event_winner_sales : Nat
  event_loser_sales : Nat
deriving DecidableEq, Repr

/-- `finalize_match`.  `winner_token_account_owner` is the owner of the
supplied `winner_token_account`; the Anchor constraints require the stake to
be Active and that account to belong to one of the two players.  The whole
escrow balance is transferred to that account. -/
def finalize_match (current_ts : Int) (match_state : MatchState)
    (stake_state : MatchStakeState) (escrow_balance : Nat)
    (winner_token_account_owner : Nat) (caller : Nat) :
    Except DroogError FinalizeResult :=
  if stake_state.status ≠ MatchStatus.Active then
    Except.error DroogError.MatchNotActive
  else if ¬ (winner_token_account_owner = match_state.player_a ∨
             winner_token_account_owner = match_state.player_b) then
    Except.error DroogError.InvalidPlayer
  else if match_state.is_finalized then
    Except.error DroogError.MatchAlreadyFinalized
  else if ¬ current_ts ≥ match_state.end_ts then
    Except.error DroogError.MatchFinalizationTooEarly
  else
    let is_player_a := caller == match_state.player_a
    let is_player_b := caller == match_state.player_b
    if ¬ (is_player_a || is_player_b) then
      Except.error DroogError.UnauthorizedFinalization
    else if stake_state.status ≠ MatchStatus.Active then
      Except.error DroogError.MatchNotActive
    else
      let wl :=
        if match_state.player_a_sales ≥ match_state.player_b_sales then
          (match_state.player_a, match_state.player_b,
           match_state.player_a_sales, match_state.player_b_sales)
        else
          (match_state.player_b, match_state.player_a,
           match_state.player_b_sales, match_state.player_a_sales)
      Except.ok
        { match_state := { match_state with is_finalized := true },
          stake_state := { stake_state with status := MatchStatus.Finalized },
          payout_destination := winner_token_account_owner,
          payout_amount := escrow_balance,
          event_winner := wl.1,
          event_loser := wl.2.1,
          event_winner_sales := wl.2.2.1,
          event_loser_sales := wl.2.2.2 }

/-! ## Reachable inventories and reputation sequences -/

/-- Inventories reachable from the initial empty inventory through the
program's operations: `harvest_strain` increments only behind the
`has_space` check, and `sell_to_customer` applies `decrement` (which leaves
the inventory unchanged when it reports failure, aborting the transaction). -/
inductive InventoryReachable : Inventory → Prop where
  | empty : InventoryReachable ⟨0, 0, 0⟩
  | harvest (inv : Inventory) (strain_level : Nat) :
      InventoryReachable inv → inv.has_space = true →
      InventoryReachable (inv.increment strain_level)
  | sell (inv : Inventory) (strain_level : Nat) :
      InventoryReachable inv → InventoryReachable (inv.decrement strain_level).2

/-- The reputation update a successful sale applies to the acting player
(`sell_to_customer` lines 100-128): base delta from the derived layer,
saturating add of the variant bonus, saturating add to the current value,
then clamping. -/
def sale_reputation_update (rep : Int) (customer_index strain_level : Nat)
    (variant_bonus : Int) : Int :=
  MatchState.clamp_reputation
    (i32SatAdd rep
      (i32SatAdd
        (MatchState.get_reputation_change
          (MatchState.layer_from_index customer_index) strain_level)
        variant_bonus))

/-- A player's reputation after a sequence of successful sales, starting
from the initial reputation 0 written by `init_match`. -/
def rep_after_sales (sales : List (Nat × Nat × Int)) : Int :=
  sales.foldl (fun rep s => sale_reputation_update rep s.1 s.2.1 s.2.2) 0

/-! ## Concrete instances used by witnesses and counterexamples -/

/-- A freshly initialised match between players 1 and 2 in which player B
has strictly more sales than player A. -/
def c1TestMatch : MatchState :=
  { match_id := 77, start_ts := 0, end_ts := 600, player_a := 1, player_b := 2,
    customers := init_customers, player_a_sales := 0, player_b_sales := 3,
    player_a_reputation := 0, player_b_reputation := 0, is_finalized := false }

/-- The corresponding active stake account. -/
def c1TestStake : MatchStakeState :=
  { match_id := 77, player_a := 1, player_b := 2, status := MatchStatus.Active,
    player_a_escrowed := STAKE_AMOUNT, player_b_escrowed := STAKE_AMOUNT,
    created_at := 0 }

/-- A small concrete match used by the C9 witness. -/
def c9TestMatch : MatchState :=
  { match_id := 9, start_ts := 0, end_ts := 600, player_a := 1, player_b := 2,
    customers := init_customers, player_a_sales := 0, player_b_sales := 0,
    player_a_reputation := 0, player_b_reputation := 0, is_finalized := false }

/-- The grow state for the C9 witness: player A holds one level-2 item. -/
def c9TestGrow : MatchGrowState :=
  { match_id := 9, player_a := 1, player_b := 2,
    player_a_slots := List.replicate 6 ⟨PlantState.Empty, 0, 0, 0⟩,
    player_b_slots := List.replicate 6 ⟨PlantState.Empty, 0, 0, 0⟩,
    player_a_inventory := ⟨0, 1, 0⟩, player_b_inventory := ⟨0, 0, 0⟩ }

/-- The delivery state for the C9 witness: customers 0, 3 and 11 are the
active set — customer 1 is absent. -/
def c9TestDelivery : MatchDeliveryState :=
  { match_id := 9, last_update_ts := 0,
    available_customers := [0, 3, 11, 255, 255], active_count := 3 }

/-- The grow state for the C10 witness: player A's slot 0 holds a plant of
strain level 1 planted at t = 590 in a match ending at t = 600. -/
def c10TestGrow : MatchGrowState :=
  { match_id := 9, player_a := 1, player_b := 2,
    player_a_slots :=
      (List.replicate 6 (⟨PlantState.Empty, 0, 0, 0⟩ : GrowSlot)).set 0
        ⟨PlantState.Growing 1 590, 1, 0, 0⟩,
    player_b_slots := List.replicate 6 ⟨PlantState.Empty, 0, 0, 0⟩,
    player_a_inventory := ⟨0, 0, 0⟩, player_b_inventory := ⟨0, 0, 0⟩ }

/-- The match for the C10 witness. -/
def c10TestMatch : MatchState :=
  { match_id := 9, start_ts := 0, end_ts := 600, player_a := 1, player_b := 2,
    customers := init_customers, player_a_sales := 0, player_b_sales := 0,
    player_a_reputation := 0, player_b_reputation := 0, is_finalized := false }

/-! ## Theorems -/

/-- C4: the canonical `layer_from_index` rule does partition the 23 indices
into 3/8/12 for layers 3/2/1, but the layer value stored by `init_match`
disagrees with it: at customer index 0 the stored layer is 1 while the
canonical rule derives 3 (the stored mapping matches it only at index 11). -/
theorem c4_stored_layer_contradicts_canonical_rule :
    ((List.range 23).filter fun i => MatchState.layer_from_index i = 3).length = 3 ∧
    ((List.range 23).filter fun i => MatchState.layer_from_index i = 2).length = 8 ∧
    ((List.range 23).filter fun i => MatchState.layer_from_index i = 1).length = 12 ∧
    (init_customers.getD 0 ⟨0, 0, 0, none⟩).layer = 1 ∧
    MatchState.layer_from_index 0 = 3 ∧
    ((List.range 23).filter fun i =>
      (init_customers.getD i ⟨0, 0, 0, none⟩).layer = MatchState.layer_from_index i) = [11] := by
  decide

/-- C2 counterexample: with `player_a_escrowed = 2^63` and
`player_b_escrowed = 2^62` the total fits in u64, the burn multiplication
`total * 10` overflows, and `join_match_with_stake` succeeds with a silent
burn of 0 instead of surfacing an overflow error (the truncated product
would have been nonzero). -/
theorem c2_burn_overflow_silently_zero :
    join_settlement (2 ^ 63) (2 ^ 62) =
      Except.ok (2 ^ 63 + 2 ^ 62, 0, 2 ^ 63 + 2 ^ 62) ∧
    (2 ^ 63 + 2 ^ 62) * BURN_PERCENTAGE / 100 ≠ 0 := by
  constructor
  · rfl
  · decide

/-- C2 (amended): the escrow total `a + b` is computed with checked addition
and overflow is surfaced as `CalculationOverflow`; the burn computation,
however, does not surface overflow: when `total * BURN_PERCENTAGE` exceeds
u64 the burn amount silently becomes 0 and the instruction succeeds. -/
theorem c2_settlement_overflow_amended (a b : Nat)
    (ha : a < U64_MOD) (hb : b < U64_MOD) :
    (U64_MOD ≤ a + b →
      join_settlement a b = Except.error DroogError.CalculationOverflow) ∧
    (a + b < U64_MOD → U64_MOD ≤ (a + b) * BURN_PERCENTAGE →
      join_settlement a b = Except.ok (a + b, 0, a + b)) := by
  constructor
  · intro h
    simp only [join_settlement, checkedAdd, if_neg (by omega : ¬ a + b < U64_MOD)]
  · intro h1 h2
    simp only [join_settlement, checkedAdd, if_pos h1, calculate_burn_amount,
      checkedMul, if_neg (by omega : ¬ (a + b) * BURN_PERCENTAGE < U64_MOD),
      Option.getD_none, checkedDiv, Nat.zero_div,
      if_neg (by omega : ¬ (100 : Nat) = 0), Option.getD_some, checkedSub,
      if_pos (Nat.zero_le (a + b)), Nat.sub_zero]

/-- C2 amended witness at `a = b = 2^63`. -/
theorem c2_settlement_overflow_amended_witness :
    (2 ^ 63 < U64_MOD ∧ U64_MOD ≤ 2 ^ 63 + 2 ^ 63) ∧
    join_settlement (2 ^ 63) (2 ^ 63) = Except.error DroogError.CalculationOverflow :=
  ⟨⟨by decide, by decide⟩,
   (c2_settlement_overflow_amended (2 ^ 63) (2 ^ 63) (by decide) (by decide)).1 (by decide)⟩

/-- C6 counterexample: the spec's own concrete instance fails — timestamps
1000 and 1059 fall into different 60-second buckets (16 and 17), so the
seeds differ rather than agree. -/
theorem c6_bucket_instance_counterexample :
    (1000 : Int) / 60 = 16 ∧ (1059 : Int) / 60 = 17 ∧
    compute_delivery_seed 12345 1000 ≠ compute_delivery_seed 12345 1059 := by
  refine ⟨by decide, by decide, ?_⟩
  decide

/-- C1: evaluating `finalize_match` with player B the winner on sales
(0 versus 3), the caller player A, and a `winner_token_account` owned by
player A — which the account constraints allow — the instruction succeeds
and transfers the whole escrow balance to player A, the loser, while the
emitted payout event names player B as the winner. -/
theorem c1_payout_follows_supplied_account_not_winner :
    finalize_match 600 c1TestMatch c1TestStake 1800000 1 1 =
      Except.ok
        { match_state := { c1TestMatch with is_finalized := true },
          stake_state := { c1TestStake with status := MatchStatus.Finalized },
          payout_destination := 1,
          payout_amount := 1800000,
          event_winner := 2,
          event_loser := 1,
          event_winner_sales := 3,
          event_loser_sales := 0 } ∧
    c1TestMatch.player_a = 1 ∧ c1TestMatch.player_b = 2 ∧
    c1TestMatch.player_a_sales < c1TestMatch.player_b_sales := by
  exact ⟨rfl, rfl, rfl, by decide⟩

/-- Clamping always lands in the reputation bounds. -/
lemma clamp_reputation_mem (x : Int) :
    -1000 ≤ MatchState.clamp_reputation x ∧ MatchState.clamp_reputation x ≤ 1000 := by
  simp only [MatchState.clamp_reputation, REP_MIN, REP_MAX]
  omega

/-- Folding sale updates over any list keeps a reputation that starts in
bounds inside the bounds. -/
lemma foldl_sale_updates_bounded (sales : List (Nat × Nat × Int)) :
    ∀ rep : Int, -1000 ≤ rep → rep ≤ 1000 →
      -1000 ≤ sales.foldl (fun rep s => sale_reputation_update rep s.1 s.2.1 s.2.2) rep ∧
      sales.foldl (fun rep s => sale_reputation_update rep s.1 s.2.1 s.2.2) rep ≤ 1000 := by
  induction sales with
  | nil => exact fun rep h1 h2 => ⟨h1, h2⟩
  | cons s rest ih =>
    intro rep _ _
    simpa using ih (sale_reputation_update rep s.1 s.2.1 s.2.2)
      (clamp_reputation_mem _).1 (clamp_reputation_mem _).2

/-- C7: for every sequence of successful sales starting from the initial
reputation 0, the reputation after every update (hence after any prefix of
updates, each prefix being such a sequence) lies in [-1000, 1000]. -/
theorem c7_reputation_always_bounded (sales : List (Nat × Nat × Int)) :
    -1000 ≤ rep_after_sales sales ∧ rep_after_sales sales ≤ 1000 :=
  foldl_sale_updates_bounded sales 0 (by decide) (by decide)

/-- Incrementing grows the saturating total by at most one. -/
lemma total_increment_le (inv : Inventory) (strain_level : Nat) :
    (inv.increment strain_level).total ≤ inv.total + 1 := by
  simp only [Inventory.increment, Inventory.total, u8SatAdd]
  split_ifs <;> simp <;> omega

/-- Decrementing never grows the saturating total. -/
lemma total_decrement_le (inv : Inventory) (strain_level : Nat) :
    (inv.decrement strain_level).2.total ≤ inv.total := by
  simp only [Inventory.decrement, Inventory.total, u8SatAdd]
  split_ifs <;> simp <;> omega

/-- C8: every inventory reachable through the program's operations (guarded
harvest increments and sale decrements) has total at most the capacity 6,
and decrementing a strain level whose count is zero reports failure and
returns the inventory unchanged. -/
theorem c8_inventory_capacity_and_zero_decrement :
    (∀ inv : Inventory, InventoryReachable inv → inv.total ≤ 6) ∧
    (∀ (inv : Inventory) (strain_level : Nat), inv.get strain_level = 0 →
      inv.decrement strain_level = (false, inv)) := by
  constructor
  · intro inv h
    induction h with
    | empty => decide
    | harvest inv strain_level _ hspace ih =>
      have hlt : inv.total < 6 := by
        have := of_decide_eq_true hspace
        simpa [INVENTORY_CAPACITY] using this
      have := total_increment_le inv strain_level
      omega
    | sell inv strain_level _ ih =>
      have := total_decrement_le inv strain_level
      omega
  · intro inv strain_level h
    simp only [Inventory.get] at h
    simp only [Inventory.decrement]
    split_ifs at h ⊢ <;> simp_all <;> omega

/-- C8 witness: the empty inventory is reachable and within capacity, and a
decrement of level 1 on an inventory holding no level-1 items fails without
change. -/
theorem c8_inventory_witness :
    Inventory.total ⟨0, 0, 0⟩ ≤ 6 ∧
    Inventory.decrement ⟨0, 4, 1⟩ 1 = (false, ⟨0, 4, 1⟩) :=
  ⟨c8_inventory_capacity_and_zero_decrement.1 ⟨0, 0, 0⟩ InventoryReachable.empty,
   c8_inventory_capacity_and_zero_decrement.2 ⟨0, 4, 1⟩ 1 (by decide)⟩

/-- C6 (amended): for non-negative timestamps (where Rust's truncating i64
division agrees with floor) the delivery seed depends only on the 60-second
bucket, and in the corrected concrete instance seed(12345, 1000) equals
seed(12345, 1019) — the last timestamp of bucket 16 — while it differs from
the bucket-17 seeds at 1020 and 1060. -/
theorem c6_seed_bucket_invariance (match_id : Nat) (t1 t2 : Int)
    (h1 : 0 ≤ t1) (h2 : 0 ≤ t2) (hb : Int.fdiv t1 60 = Int.fdiv t2 60) :
    compute_delivery_seed match_id t1 = compute_delivery_seed match_id t2 ∧
    compute_delivery_seed 12345 1000 = compute_delivery_seed 12345 1019 ∧
    compute_delivery_seed 12345 1000 ≠ compute_delivery_seed 12345 1020 ∧
    compute_delivery_seed 12345 1000 ≠ compute_delivery_seed 12345 1060 := by
  refine ⟨?_, by decide, by decide, by decide⟩
  have hq : t1.tdiv 60 = t2.tdiv 60 := by
    rw [Int.tdiv_eq_ediv h1 (by decide), Int.tdiv_eq_ediv h2 (by decide),
      ← Int.fdiv_eq_ediv t1 (by decide), ← Int.fdiv_eq_ediv t2 (by decide), hb]
  simp only [compute_delivery_seed, DELIVERY_ROTATION_INTERVAL, hq]

/-- C6 witness at match id 12345, timestamps 1000 and 1019 (both in
bucket 16). -/
theorem c6_seed_bucket_invariance_witness :
    ((0 : Int) ≤ 1000 ∧ Int.fdiv 1000 60 = Int.fdiv 1019 60) ∧
    compute_delivery_seed 12345 1000 = compute_delivery_seed 12345 1019 :=
  ⟨⟨by decide, by decide⟩,
   (c6_seed_bucket_invariance 12345 1000 1019 (by decide) (by decide) (by decide)).1⟩

/-- C9: a sale naming a customer outside the delivery active set fails with
`CustomerNotAvailableForDelivery` (and, the instruction aborting, writes no
state), even when every other precondition — consistent accounts, open
unfinalized match, valid index and strain level, participant caller,
elapsed cooldown, compatible strain, sufficient inventory — holds. -/
theorem c9_absent_customer_sale_fails (current_ts : Int) (m : MatchState)
    (g : MatchGrowState) (ds : MatchDeliveryState)
    (player customer_index strain_level : Nat)
    (hg : g.match_id = m.match_id) (hd : ds.match_id = m.match_id)
    (hfin : m.is_finalized = false)
    (hstart : current_ts ≥ m.start_ts) (hend : current_ts < m.end_ts)
    (hidx : customer_index < 23)
    (hsl : 1 ≤ strain_level ∧ strain_level ≤ 3)
    (hplayer : player = m.player_a ∨ player = m.player_b)
    (hcool : m.is_customer_available customer_index current_ts = true)
    (hcompat : m.validate_strain_for_customer customer_index strain_level = true)
    (hinv : (if player == m.player_a then g.player_a_inventory
             else g.player_b_inventory).has strain_level = true)
    (habsent : ds.is_customer_available customer_index = false) :
    sell_to_customer current_ts m g ds player customer_index strain_level =
      Except.error DroogError.CustomerNotAvailableForDelivery := by
  have hp : (player == m.player_a || player == m.player_b) = true := by
    rcases hplayer with h | h <;> simp [h]
  simp only [sell_to_customer, hg, hd, hfin, habsent, hp]
  simp [hstart, hend, hidx, hsl.1, hsl.2, Int.not_lt.2 hstart, hend]

/-- C9 witness: player A sells strain level 2 to customer 1 (layer 3,
compatible, off cooldown, inventory available) at t = 10, but customer 1 is
not in the delivery active set, so the sale fails. -/
theorem c9_absent_customer_sale_fails_witness :
    c9TestDelivery.is_customer_available 1 = false ∧
    sell_to_customer 10 c9TestMatch c9TestGrow c9TestDelivery 1 1 2 =
      Except.error DroogError.CustomerNotAvailableForDelivery :=
  ⟨by decide,
   c9_absent_customer_sale_fails 10 c9TestMatch c9TestGrow c9TestDelivery 1 1 2
     rfl rfl rfl (by decide) (by decide) (by decide) (by decide)
     (Or.inl rfl) (by decide) (by decide) (by decide) (by decide)⟩

/-- C10: a plant accepted exactly at the planting deadline
(`planted_at + growth_time = end_ts`, which `will_be_ready_in_time`
permits) can never be harvested: strictly before `end_ts` it is still
Growing after the lazy advance and harvesting fails with
`GrowthTimeNotElapsed`; at or after `end_ts` harvesting fails with
`MatchEnded`. -/
theorem c10_boundary_plant_never_harvestable (current_ts : Int)
    (g : MatchGrowState) (m : MatchState)
    (player slot_index strain_level : Nat) (planted_at : Int)
    (hfin : m.is_finalized = false) (hstart : current_ts ≥ m.start_ts)
    (hslot : slot_index < SLOTS_PER_PLAYER)
    (hplayer : player = g.player_a ∨ player = g.player_b)
    (hL : 1 ≤ strain_level ∧ strain_level ≤ 3)
    (hboundary : planted_at + get_growth_time strain_level = m.end_ts)
    (hstate : ((if player == g.player_a then g.player_a_slots
                else g.player_b_slots).getD slot_index
        ⟨PlantState.Empty, 0, 0, 0⟩).plant_state
        = PlantState.Growing strain_level planted_at) :
    will_be_ready_in_time planted_at m.end_ts strain_level = true ∧
    (current_ts < m.end_ts →
      harvest_strain current_ts g m player slot_index =
        Except.error DroogError.GrowthTimeNotElapsed) ∧
    (current_ts ≥ m.end_ts →
      harvest_strain current_ts g m player slot_index =
        Except.error DroogError.MatchEnded) := by
  obtain ⟨hL1, hL2⟩ := hL
  have hgt : 0 < get_growth_time strain_level ∧ get_growth_time strain_level ≤ 60 := by
    unfold get_growth_time
    split_ifs <;> omega
  have hp : (player == g.player_a || player == g.player_b) = true := by
    rcases hplayer with h | h <;> simp [h]
  refine ⟨?_, ?_, ?_⟩
  · simp only [will_be_ready_in_time]
    simp [hboundary]
  · intro hnow
    have hsat : i64SatSub current_ts planted_at < get_growth_time strain_level := by
      simp only [i64SatSub, I64_MIN, I64_MAX]
      omega
    have hstate' := hstate
    simp only [List.getD_eq_getElem?_getD, beq_iff_eq] at hstate'
    have hadv : (((if player == g.player_a then g.player_a_slots
          else g.player_b_slots).getD slot_index
          ⟨PlantState.Empty, 0, 0, 0⟩).advance_if_ready current_ts).plant_state
        = PlantState.Growing strain_level planted_at := by
      simp [GrowSlot.advance_if_ready, hstate', Int.not_le.mpr hsat]
    simp only [harvest_strain]
    rw [if_neg (by simp [hfin]), if_neg (not_not_intro hstart),
      if_neg (not_not_intro hnow), if_neg (not_not_intro hslot),
      if_neg (by simp [hp]), hadv]
  · intro hnow
    simp only [harvest_strain]
    rw [if_neg (by simp [hfin]), if_neg (not_not_intro hstart),
      if_pos (Int.not_lt.mpr hnow)]

/-- C10 witness: the boundary plant (590 + 10 = 600) passes the planting
readiness check, and harvesting it at t = 599 fails with
`GrowthTimeNotElapsed` while harvesting at t = 600 fails with `MatchEnded`. -/
theorem c10_boundary_plant_never_harvestable_witness :
    ((590 : Int) + get_growth_time 1 = c10TestMatch.end_ts) ∧
    will_be_ready_in_time 590 c10TestMatch.end_ts 1 = true ∧
    harvest_strain 599 c10TestGrow c10TestMatch 1 0 =
      Except.error DroogError.GrowthTimeNotElapsed := by
  have h := c10_boundary_plant_never_harvestable 599 c10TestGrow c10TestMatch
    1 0 1 590 rfl (by decide) (by decide) (Or.inl rfl) (by decide)
    (by decide) (by decide)
  exact ⟨by decide, h.1, h.2.1 (by decide)⟩

/-- The spot-selection always returns 4 or 5 entries: the three layer picks
always land, the first bonus slot always appends (its fallback is taken
unconditionally on collision), and the second bonus slot may be skipped. -/
lemma contains_spot_eq_false_iff (spots : List Nat) (v : Nat) :
    contains_spot spots v = false ↔ v ∉ spots := by
  simp only [contains_spot, List.any_eq_false, beq_iff_eq]
  constructor
  · intro h hv
    exact h v hv rfl
  · intro h x hx hxv
    exact h (hxv ▸ hx)

/-- The first bonus stage always appends exactly one entry. -/
lemma select_spots_additional1_length (seed : Nat) (spots : List Nat) :
    (select_spots_additional1 seed spots).length = spots.length + 1 := by
  simp only [select_spots_additional1]
  split_ifs <;> simp

/-- The second bonus stage appends at most one entry. -/
lemma select_spots_additional2_length (seed : Nat) (spots : List Nat) :
    (select_spots_additional2 seed spots).length = spots.length ∨
    (select_spots_additional2 seed spots).length = spots.length + 1 := by
  simp only [select_spots_additional2]
  split_ifs <;> simp

lemma select_delivery_spots_length (seed : Nat) :
    (select_delivery_spots seed).length = 4 ∨ (select_delivery_spots seed).length = 5 := by
  unfold select_delivery_spots
  have h0 : (select_spots_layer_picks seed).length = 3 := by
    simp [select_spots_layer_picks]
  have h1 := select_spots_additional1_length seed (select_spots_layer_picks seed)
  have h2 := select_spots_additional2_length seed
    (select_spots_additional1 seed (select_spots_layer_picks seed))
  omega

/-- C3 (amended): `select_delivery_spots` returns between 4 and 5 active
spots for every seed; a count of 3 is not reachable, because the first
bonus slot always adds an entry — on a collision its fallback offset is
written without a further duplicate check. -/
theorem c3_active_spot_count (seed : Nat) :
    4 ≤ (select_delivery_spots seed).length ∧ (select_delivery_spots seed).length ≤ 5 := by
  rcases select_delivery_spots_length seed with h | h <;> omega

/-- C3 counterexample: no seed yields an active-spot count of 3, refuting
the claim that a count of 3 is legitimately reachable. -/
theorem c3_count_three_unreachable :
    ¬ ∃ seed : Nat, (select_delivery_spots seed).length = 3 := by
  rintro ⟨seed, h⟩
  rcases select_delivery_spots_length seed with h4 | h4 <;> omega

/-- The first bonus stage, applied to three picks with one index in each
layer range, appends a single new index in the layer 1-2 range that
duplicates none of them: a colliding pick can only equal the same-layer
base pick, and the fallback offset differs from it. -/
lemma select_spots_additional1_spec (seed a b c : Nat)
    (ha : a ≤ 2) (hb1 : 3 ≤ b) (hb2 : b ≤ 10) (hc1 : 11 ≤ c) (hc2 : c ≤ 22) :
    ∃ d, select_spots_additional1 seed [a, b, c] = [a, b, c, d] ∧
      3 ≤ d ∧ d ≤ 22 ∧ ¬ d = a ∧ ¬ d = b ∧ ¬ d = c := by
  have e2 : (10 : Nat) - 3 + 1 = 8 := rfl
  have e1 : (22 : Nat) - 11 + 1 = 12 := rfl
  simp only [select_spots_additional1, LAYER2_START, LAYER2_END, LAYER1_START,
    LAYER1_END, e2, e1]
  split_ifs with h1 h2 h3
  · rw [Bool.not_eq_true'] at h2
    replace h2 := (contains_spot_eq_false_iff _ _).mp h2
    simp only [List.mem_cons, List.not_mem_nil, or_false, not_or] at h2
    exact ⟨_, rfl, by omega, by omega, by omega, by omega, by omega⟩
  · replace h2 : contains_spot [a, b, c] (3 + seed >>> 24 >>> 4 % 8) = true := by
      revert h2
      cases contains_spot [a, b, c] (3 + seed >>> 24 >>> 4 % 8) <;> simp
    simp only [contains_spot, List.any_cons, List.any_nil, Bool.or_eq_true,
      beq_iff_eq, Bool.or_false] at h2
    exact ⟨_, rfl, by omega, by omega, by omega, by omega, by omega⟩
  · rw [Bool.not_eq_true'] at h3
    replace h3 := (contains_spot_eq_false_iff _ _).mp h3
    simp only [List.mem_cons, List.not_mem_nil, or_false, not_or] at h3
    exact ⟨_, rfl, by omega, by omega, by omega, by omega, by omega⟩
  · replace h3 : contains_spot [a, b, c] (11 + seed >>> 24 >>> 4 % 12) = true := by
      revert h3
      cases contains_spot [a, b, c] (11 + seed >>> 24 >>> 4 % 12) <;> simp
    simp only [contains_spot, List.any_cons, List.any_nil, Bool.or_eq_true,
      beq_iff_eq, Bool.or_false] at h3
    exact ⟨_, rfl, by omega, by omega, by omega, by omega, by omega⟩

/-- The second bonus stage either leaves the list unchanged or appends a
single index not already present. -/
lemma select_spots_additional2_spec (seed : Nat) (spots : List Nat) :
    select_spots_additional2 seed spots = spots ∨
    ∃ e, select_spots_additional2 seed spots = spots ++ [e] ∧ e ∉ spots := by
  simp only [select_spots_additional2]
  split_ifs <;>
    first
    | exact Or.inl rfl
    | (rename_i h
       refine Or.inr ⟨_, rfl, ?_⟩
       rw [Bool.not_eq_true'] at h
       exact (contains_spot_eq_false_iff _ _).mp h)

/-- C5: for every seed the selected delivery spots contain at least one
index from the layer 3 range 0-2, one from the layer 2 range 3-10 and one
from the layer 1 range 11-22, and hold no duplicate index. -/
theorem c5_layer_coverage_and_no_duplicates (seed : Nat) :
    (∃ i ∈ select_delivery_spots seed, i ≤ 2) ∧
    (∃ i ∈ select_delivery_spots seed, 3 ≤ i ∧ i ≤ 10) ∧
    (∃ i ∈ select_delivery_spots seed, 11 ≤ i ∧ i ≤ 22) ∧
    (select_delivery_spots seed).Nodup := by
  have hbase : select_spots_layer_picks seed =
      [seed % 3, 3 + (seed >>> 8) % 8, 11 + (seed >>> 16) % 12] := by
    simp [select_spots_layer_picks, LAYER3_START, LAYER3_END, LAYER2_START,
      LAYER2_END, LAYER1_START, LAYER1_END]
  obtain ⟨d, hd, hd3, hd22, hda, hdb, hdc⟩ :=
    select_spots_additional1_spec seed (seed % 3) (3 + (seed >>> 8) % 8)
      (11 + (seed >>> 16) % 12) (by omega) (by omega) (by omega) (by omega) (by omega)
  have hsel : select_delivery_spots seed =
      select_spots_additional2 seed
        [seed % 3, 3 + (seed >>> 8) % 8, 11 + (seed >>> 16) % 12, d] := by
    rw [select_delivery_spots, hbase, hd]
  have hnodup4 : ([seed % 3, 3 + (seed >>> 8) % 8, 11 + (seed >>> 16) % 12, d]).Nodup := by
    simp only [List.nodup_cons, List.mem_cons, List.not_mem_nil, List.nodup_nil,
      not_or, not_false_eq_true, and_true, List.mem_singleton]
    omega
  rcases select_spots_additional2_spec seed
      [seed % 3, 3 + (seed >>> 8) % 8, 11 + (seed >>> 16) % 12, d] with h | ⟨e, he, hem⟩
  · rw [hsel, h]
    refine ⟨⟨seed % 3, by simp, by omega⟩,
      ⟨3 + (seed >>> 8) % 8, by simp, by omega⟩,
      ⟨11 + (seed >>> 16) % 12, by simp, by omega⟩, hnodup4⟩
  · rw [hsel, he]
    refine ⟨⟨seed % 3, by simp, by omega⟩,
      ⟨3 + (seed >>> 8) % 8, by simp, by omega⟩,
      ⟨11 + (seed >>> 16) % 12, by simp, by omega⟩, ?_⟩
    rw [List.nodup_append]
    refine ⟨hnodup4, List.nodup_singleton e, ?_⟩
    intro x hx hx'
    simp only [List.mem_singleton] at hx'
    subst hx'
    exact hem hx

end Droog
